import Mathlib

/-!
Shallow embedding of the booking and credit-ledger engine of the
fitness-class reservation backend (Express routes over a Supabase store),
together with theorems checking the natural-language specification
against it.

Sources embedded:
* `src/backend/src/routes/bookings.js` — create booking (`POST /`),
  cancel booking (`PATCH /:bookingId/cancel`);
* `src/backend/src/routes/sessions.js` — list sessions (`GET /`),
  `verifyShopifyWebhook`, the `POST /orders/cancelled` webhook handler
  (grant reversal cascade) and the `POST /orders` webhook handler
  (grant creation).

Times are modelled as integers (milliseconds since an arbitrary epoch) and
calendar dates as integer day numbers, so that the JavaScript `Date`
arithmetic (`sessionDateTime.getTime() - cutoff * 60 * 1000`, string date
comparisons `end_date >= today`) becomes plain integer arithmetic.
Display-only fields (names, descriptions, joined class/instructor data)
are omitted: no handler branches on them.
-/

deriving instance DecidableEq for Except

namespace Booker

inductive SessionStatus where
  | scheduled
  | completed
  | cancelled
deriving DecidableEq, Repr

inductive BookingStatus where
  | active
  | cancelled
deriving DecidableEq, Repr

inductive PlanStatus where
  | active
  | expired
  | cancelled
deriving DecidableEq, Repr

inductive TxType where
  | debit
  | credit
deriving DecidableEq, Repr

/-- A row of the `sessions` table.  `session_datetime` is the parsed
`session_date + "T" + session_time` instant in milliseconds;
`session_date` is the day number used by the date filters. -/
structure Session where
  id : Nat
  session_date : Int
  session_datetime : Int
  capacity : Int
  spots_taken : Int
  booking_cutoff_minutes : Int
  cancellation_cutoff_hours : Int
  status : SessionStatus
deriving DecidableEq, Repr

/-- A row of the `student_plans` table (a plan grant). -/
structure StudentPlan where
  id : Nat
  student_id : Nat
  purchase_id : Nat
  remaining_credits : Int
  is_unlimited : Bool
  end_date : Int
  status : PlanStatus
deriving DecidableEq, Repr

/-- A row of the `bookings` table. -/
structure Booking where
  id : Nat
  student_id : Nat
  session_id : Nat
  student_plan_id : Nat
  status : BookingStatus
  cancelled_at : Option Int
  cancellation_reason : Option String
  credit_refunded : Bool
deriving DecidableEq, Repr

/-- A row of the append-only `credit_transactions` table (the ledger).
The free-text description is omitted. -/
structure CreditTransaction where
  student_plan_id : Nat
  transaction_type : TxType
  amount : Int
  balance_before : Int
  balance_after : Int
  reference_id : Nat
  reference_type : String
deriving DecidableEq, Repr

/-- A row of the `plan_purchases` table (the upstream purchase fact a
grant hangs off). -/
structure PlanPurchase where
  id : Nat
  shopify_order_id : Nat
deriving DecidableEq, Repr

/-- A row of the `users` table (only the identity mapping the webhook
handlers branch on). -/
structure UserRow where
  id : Nat
  shopify_customer_id : Nat
deriving DecidableEq, Repr

/-- A row of the `students` table (only the user link). -/
structure Student where
  id : Nat
  user_id : Nat
deriving DecidableEq, Repr

/-- A row of the `plans` table (a purchasable plan template). -/
structure Plan where
  id : Nat
  shopify_product_id : Nat
  shopify_variant_id : Nat
  credits : Int
  duration_days : Int
  is_unlimited : Bool
deriving DecidableEq, Repr

/-- The slice of the database the handlers touch.  The `next…Id` fields
model the store's id allocation for the corresponding inserts. -/
structure Db where
  sessions : List Session
  student_plans : List StudentPlan
  bookings : List Booking
  plan_purchases : List PlanPurchase
  credit_transactions : List CreditTransaction
  users : List UserRow
  students : List Student
  plans : List Plan
  nextBookingId : Nat
  nextUserId : Nat
  nextStudentId : Nat
  nextPurchaseId : Nat
  nextGrantId : Nat
deriving DecidableEq, Repr

/-- The empty store; concrete states below override the relevant fields. -/
def Db.empty : Db :=
  { sessions := [], student_plans := [], bookings := [], plan_purchases := [],
    credit_transactions := [], users := [], students := [], plans := [],
    nextBookingId := 0, nextUserId := 0, nextStudentId := 0,
    nextPurchaseId := 0, nextGrantId := 0 }

/-- The `spots_left` column as read by the handlers: the store keeps it
equal to `capacity - spots_taken`. -/
def spots_left (s : Session) : Int :=
  s.capacity - s.spots_taken

/-- `cutoffTime` of the create-booking handler:
`sessionDateTime - booking_cutoff_minutes * 60 * 1000`. -/
def bookingCutoffTime (s : Session) : Int :=
  s.session_datetime - s.booking_cutoff_minutes * 60 * 1000

/-- `cancellationDeadline` of the cancel handler:
`sessionDateTime - cancellation_cutoff_hours * 60 * 60 * 1000`. -/
def cancellationDeadline (s : Session) : Int :=
  s.session_datetime - s.cancellation_cutoff_hours * 60 * 60 * 1000

/-- Modelled from the spec: the stored procedure `create_credit_transaction`
is invoked by the routes via `supabase.rpc` but its SQL body is not among
the repository sources.  Following section 4.1 of the spec, it reads the
grant's current `remaining_credits` as `balance_before`, computes
`balance_after` by applying the debit or credit, appends the ledger entry,
and updates the grant's cached `remaining_credits` in the same transaction;
for an `is_unlimited` grant the entry is recorded for audit only, with no
balance effect.  An unknown grant id leaves the store unchanged. -/
def create_credit_transaction (db : Db) (planId : Nat) (t : TxType)
    (amount : Int) (refId : Nat) (refType : String) : Db :=
  match db.student_plans.find? (fun p => p.id == planId) with
  | none => db
  | some p =>
    let before := p.remaining_credits
    let delta : Int :=
      if p.is_unlimited then 0
      else match t with
        | TxType.debit => -amount
        | TxType.credit => amount
    let after := before + delta
    { db with
      student_plans := db.student_plans.map
        (fun q => if q.id == planId then { q with remaining_credits := after } else q),
      credit_transactions :=
        { student_plan_id := planId, transaction_type := t, amount := amount,
          balance_before := before, balance_after := after,
          reference_id := refId, reference_type := refType }
          :: db.credit_transactions }

/-- Modelled from the spec: no code under `src/` ever writes
`Session.spots_taken`, yet the handlers read `spots_left`; per sections 3
and 4.3 of the spec the storage layer keeps `spots_taken` in sync with the
active bookings.  Inserting an active booking increments the session's
counter. -/
def takeSpot (db : Db) (sessionId : Nat) : Db :=
  { db with
    sessions := db.sessions.map
      (fun s => if s.id == sessionId then { s with spots_taken := s.spots_taken + 1 } else s) }

/-- Modelled from the spec (section 4.3 `release`): a booking leaving the
`active` state frees its spot; the decrement is floor-clamped at 0. -/
def releaseSpot (db : Db) (sessionId : Nat) : Db :=
  { db with
    sessions := db.sessions.map
      (fun s => if s.id == sessionId then { s with spots_taken := max 0 (s.spots_taken - 1) } else s) }

/-- The booking insert of the create-booking handler (status `active`,
other mutable fields at their defaults), together with the modelled
storage rule that increments `spots_taken` (see `takeSpot`). -/
def insertActiveBooking (db : Db) (studentId sessionId planId : Nat) :
    Db × Booking :=
  let b : Booking :=
    { id := db.nextBookingId, student_id := studentId, session_id := sessionId,
      student_plan_id := planId, status := BookingStatus.active,
      cancelled_at := none, cancellation_reason := none, credit_refunded := false }
  (takeSpot
    { db with bookings := b :: db.bookings, nextBookingId := db.nextBookingId + 1 }
    sessionId, b)

/-- The `bookings` update of the cancel paths: set status `cancelled`,
`cancelled_at`, `cancellation_reason`, and — only on the webhook cascade
path, which passes `some true` — `credit_refunded`; the member-cancel
update leaves `credit_refunded` untouched (`none`).  The `spots_taken`
decrement for a row leaving the `active` state is the modelled storage
rule (see `releaseSpot`). -/
def cancelBookingRow (db : Db) (bookingId : Nat) (now : Int)
    (reason : String) (refunded : Option Bool) : Db :=
  match db.bookings.find? (fun b => b.id == bookingId) with
  | none => db
  | some b =>
    let upd : Booking → Booking := fun x =>
      if x.id == bookingId then
        { x with
          status := BookingStatus.cancelled
          cancelled_at := some now
          cancellation_reason := some reason
          credit_refunded := refunded.getD x.credit_refunded }
      else x
    let db1 := { db with bookings := db.bookings.map upd }
    if b.status == BookingStatus.active then releaseSpot db1 b.session_id else db1

/-- The plans query of the create-booking handler: the student's plans
with `status = 'active'` and `end_date >= today`, in table order (the
query has no ordering clause), then `studentPlans.find(plan =>
plan.is_unlimited || plan.remaining_credits > 0)`. -/
def availablePlan (db : Db) (studentId : Nat) (today : Int) :
    Option StudentPlan :=
  (db.student_plans.filter
    (fun p => p.student_id == studentId
      && p.status == PlanStatus.active && decide (today ≤ p.end_date))).find?
    (fun p => p.is_unlimited || decide (0 < p.remaining_credits))

inductive ReserveError where
  | sessionNotFound
  | alreadyBooked
  | sessionNotAvailable
  | sessionFull
  | bookingClosed
  | noCreditsAvailable
deriving DecidableEq, Repr

/-- The guard sequence of the create-booking handler (`POST /` in
`bookings.js`), in source order: duplicate active booking, session
existence, session status, `spots_left <= 0`, booking cutoff, plan with
available credits.  Returns the plan that will be charged. -/
def reserveValidate (db : Db) (studentId sessionId : Nat) (now today : Int) :
    Except ReserveError StudentPlan :=
  if (db.bookings.find?
      (fun b => b.student_id == studentId && b.session_id == sessionId
        && b.status == BookingStatus.active)).isSome then
    Except.error ReserveError.alreadyBooked
  else
    match db.sessions.find? (fun s => s.id == sessionId) with
    | none => Except.error ReserveError.sessionNotFound
    | some s =>
      if s.status ≠ SessionStatus.scheduled then
        Except.error ReserveError.sessionNotAvailable
      else if spots_left s ≤ 0 then
        Except.error ReserveError.sessionFull
      else if bookingCutoffTime s ≤ now then
        Except.error ReserveError.bookingClosed
      else
        match availablePlan db studentId today with
        | none => Except.error ReserveError.noCreditsAvailable
        | some p => Except.ok p

/-- The mutation tail of the create-booking handler: insert the active
booking, then call the `create_credit_transaction` rpc with a debit of 1
referencing it.  `txOk` models whether that storage call succeeds: on
failure the handler only logs the error and keeps the booking (source
comment: the booking is not failed if transaction logging fails). -/
def reserveCommit (db : Db) (studentId sessionId : Nat) (plan : StudentPlan)
    (txOk : Bool) : Db × Booking :=
  let ins := insertActiveBooking db studentId sessionId plan.id
  (if txOk then
    create_credit_transaction ins.1 plan.id TxType.debit 1 ins.2.id "booking"
   else ins.1, ins.2)

/-- The create-booking handler (`POST /` of `bookings.js`): guards in
source order, then the commit tail. -/
def createBooking (db : Db) (studentId sessionId : Nat) (now today : Int)
    (txOk : Bool) : Db × Except ReserveError Booking :=
  match reserveValidate db studentId sessionId now today with
  | Except.error e => (db, Except.error e)
  | Except.ok p =>
    let c := reserveCommit db studentId sessionId p txOk
    (c.1, Except.ok c.2)

inductive CancelError where
  | notFound
  | cannotCancel
  | deadlinePassed
deriving DecidableEq, Repr

/-- The cancel-booking handler (`PATCH /:bookingId/cancel` of
`bookings.js`): fetch the booking (with its session) scoped to the
requesting student, reject if not `active`, reject outright if
`now >= cancellationDeadline`, otherwise mark it cancelled (the update
does not touch `credit_refunded`) and call the rpc with a credit of 1
referencing the booking.  `txOk` models that rpc call's success; on
failure the handler only logs (source comment: the cancellation is not
failed if transaction logging fails). -/
def cancelBooking (db : Db) (studentId bookingId : Nat) (now : Int)
    (reason : Option String) (txOk : Bool) : Db × Except CancelError Unit :=
  match db.bookings.find?
      (fun b => b.id == bookingId && b.student_id == studentId) with
  | none => (db, Except.error CancelError.notFound)
  | some b =>
    if b.status ≠ BookingStatus.active then
      (db, Except.error CancelError.cannotCancel)
    else
      match db.sessions.find? (fun s => s.id == b.session_id) with
      | none => (db, Except.error CancelError.notFound)
      | some s =>
        if cancellationDeadline s ≤ now then
          (db, Except.error CancelError.deadlinePassed)
        else
          let db1 := cancelBookingRow db bookingId now
            (reason.getD "Cancelled by user") none
          let db2 :=
            if txOk then
              create_credit_transaction db1 b.student_plan_id TxType.credit 1
                b.id "cancellation"
            else db1
          (db2, Except.ok ())

/-- The list-sessions handler (`GET /` of `sessions.js`): the query keeps
sessions with `status = 'scheduled'` and `session_date >= today` (plus an
optional exact-date filter), and the handler then drops, in JavaScript,
every session whose booking cutoff has passed (`now >= cutoffTime`).
Ordering, pagination and the joined class/instructor data are omitted:
they do not affect which sessions can appear. -/
def listAvailableSessions (db : Db) (today now : Int)
    (dateFilter : Option Int) : List Session :=
  let base := db.sessions.filter
    (fun s => s.status == SessionStatus.scheduled && decide (today ≤ s.session_date))
  let base2 :=
    match dateFilter with
    | none => base
    | some d => base.filter (fun s => s.session_date == d)
  base2.filter (fun s => decide (now < bookingCutoffTime s))

/-- The `student_plans` update of the `POST /orders/cancelled` body:
mark the plan `cancelled`. -/
def planCancelled (db : Db) (planId : Nat) : Db :=
  { db with
    student_plans := db.student_plans.map
      (fun q => if q.id == planId then
        { q with status := PlanStatus.cancelled } else q) }

/-- The booking loop of the `POST /orders/cancelled` body: cancel every
still-active booking charged to the plan with reason "Order refunded"
and `credit_refunded := true` (no per-booking rpc call is made). -/
def cascadeCancelActives (db : Db) (planId : Nat) (now : Int) : Db :=
  (db.bookings.filter
    (fun b => b.student_plan_id == planId
      && b.status == BookingStatus.active)).foldl
    (fun acc b => cancelBookingRow acc b.id now "Order refunded" (some true)) db

/-- One grant of the `POST /orders/cancelled` webhook body: mark the
student plan `cancelled`, call the rpc with a credit of the plan's
(pre-fetched) `remaining_credits` referencing the purchase, then run the
booking-cancellation loop. -/
def reverseStudentPlan (db : Db) (purchaseId : Nat) (sp : StudentPlan)
    (now : Int) : Db :=
  cascadeCancelActives
    (create_credit_transaction (planCancelled db sp.id) sp.id TxType.credit
      sp.remaining_credits purchaseId "refund")
    sp.id now

/-- The body of the `POST /orders/cancelled` webhook handler (after
signature verification): fetch the order's purchases together with their
student plans in one snapshot, then reverse each plan
(see `reverseStudentPlan`). -/
def ordersCancelledBody (db : Db) (orderId : Nat) (now : Int) : Db :=
  let snapshot := (db.plan_purchases.filter
      (fun p => p.shopify_order_id == orderId)).map
    (fun pu => (pu, db.student_plans.filter (fun sp => sp.purchase_id == pu.id)))
  snapshot.foldl
    (fun acc ppu => ppu.2.foldl
      (fun acc2 sp => reverseStudentPlan acc2 ppu.1.id sp now) acc) db

/-- `crypto.timingSafeEqual` on decoded byte strings: throws
(`Except.error`) when the buffer lengths differ, otherwise compares. -/
def timingSafeEqual (a b : List Nat) : Except Unit Bool :=
  if a.length == b.length then Except.ok (a == b) else Except.error ()

/-- `verifyShopifyWebhook` of `sessions.js`.  `hmacDigest` stands for the
external `crypto.createHmac('sha256', secret).update(body).digest()`
computation (a 32-byte digest in reality); `signature` is the decoded
`x-shopify-hmac-sha256` header, `none` when the header is absent (in which
case `Buffer.from(undefined)` throws).  Without a configured secret the
function returns `false`; otherwise it compares with `timingSafeEqual`,
whose length-mismatch exception propagates to the route's catch block. -/
def verifyShopifyWebhook (hmacDigest : String → String → List Nat)
    (secret : Option String) (body : String)
    (signature : Option (List Nat)) : Except Unit Bool :=
  match secret with
  | none => Except.ok false
  | some sec =>
    match signature with
    | none => Except.error ()
    | some sig => timingSafeEqual sig (hmacDigest sec body)

inductive WebhookOutcome where
  | unauthorized
  | serverError
  | processed
deriving DecidableEq, Repr

/-- The `POST /orders/cancelled` webhook handler: verify the signature
(a thrown exception is caught and answered with a 500 server error, a
`false` with a 401 Unauthorized), then run the reversal cascade. -/
def ordersCancelledWebhook (hmacDigest : String → String → List Nat)
    (secret : Option String) (body : String)
    (signature : Option (List Nat)) (db : Db) (orderId : Nat) (now : Int) :
    WebhookOutcome × Db :=
  match verifyShopifyWebhook hmacDigest secret body signature with
  | Except.error _ => (WebhookOutcome.serverError, db)
  | Except.ok false => (WebhookOutcome.unauthorized, db)
  | Except.ok true => (WebhookOutcome.processed, ordersCancelledBody db orderId now)

/-- A line item of an incoming order payload. -/
structure LineItem where
  product_id : Nat
  variant_id : Option Nat
  quantity : Int
deriving DecidableEq, Repr

/-- `findOrCreateUser` of the webhook module: look the Shopify customer
up by external id, inserting a fresh row when absent. -/
def findOrCreateUser (db : Db) (shopifyCustomerId : Nat) : Db × Nat :=
  match db.users.find? (fun u => u.shopify_customer_id == shopifyCustomerId) with
  | some u => (db, u.id)
  | none =>
    ({ db with
       users := { id := db.nextUserId, shopify_customer_id := shopifyCustomerId }
         :: db.users,
       nextUserId := db.nextUserId + 1 }, db.nextUserId)

/-- The find-or-create of the student profile in the `POST /orders`
handler. -/
def findOrCreateStudent (db : Db) (userId : Nat) : Db × Nat :=
  match db.students.find? (fun s => s.user_id == userId) with
  | some s => (db, s.id)
  | none =>
    ({ db with
       students := { id := db.nextStudentId, user_id := userId } :: db.students,
       nextStudentId := db.nextStudentId + 1 }, db.nextStudentId)

/-- `findPlanByShopifyId`: match on the product id, and on the variant id
when the line item carries one. -/
def findPlanByShopifyId (db : Db) (productId : Nat) (variantId : Option Nat) :
    Option Plan :=
  db.plans.find? (fun p =>
    p.shopify_product_id == productId
      && match variantId with
         | none => true
         | some v => p.shopify_variant_id == v)

/-- One line item of the `POST /orders` body: skip items with no matching
plan; otherwise insert the `plan_purchases` row and the `student_plans`
grant (`createStudentPlan`: validity `today .. today + duration_days`,
credits `plan.credits * quantity`, status `active`). -/
def processLineItem (db : Db) (orderId studentId : Nat) (today : Int)
    (li : LineItem) : Db :=
  match findPlanByShopifyId db li.product_id li.variant_id with
  | none => db
  | some plan =>
    let purchase : PlanPurchase :=
      { id := db.nextPurchaseId, shopify_order_id := orderId }
    let grant : StudentPlan :=
      { id := db.nextGrantId, student_id := studentId,
        purchase_id := purchase.id,
        remaining_credits := plan.credits * li.quantity,
        is_unlimited := plan.is_unlimited,
        end_date := today + plan.duration_days, status := PlanStatus.active }
    { db with
      plan_purchases := purchase :: db.plan_purchases,
      student_plans := grant :: db.student_plans,
      nextPurchaseId := db.nextPurchaseId + 1,
      nextGrantId := db.nextGrantId + 1 }

/-- The body of the `POST /orders` (plan purchase) webhook handler:
find or create the user and student, then process each line item. -/
def ordersCreateBody (db : Db) (orderId shopifyCustomerId : Nat)
    (lineItems : List LineItem) (today : Int) : Db :=
  let u := findOrCreateUser db shopifyCustomerId
  let st := findOrCreateStudent u.1 u.2
  lineItems.foldl (fun acc li => processLineItem acc orderId st.2 today li) st.1

/-- The `POST /orders` (grant creation) webhook handler: the same
verification gate as `ordersCancelledWebhook`, then the purchase body. -/
def ordersCreateWebhook (hmacDigest : String → String → List Nat)
    (secret : Option String) (body : String)
    (signature : Option (List Nat)) (db : Db)
    (orderId shopifyCustomerId : Nat) (lineItems : List LineItem)
    (today : Int) : WebhookOutcome × Db :=
  match verifyShopifyWebhook hmacDigest secret body signature with
  | Except.error _ => (WebhookOutcome.serverError, db)
  | Except.ok false => (WebhookOutcome.unauthorized, db)
  | Except.ok true =>
    (WebhookOutcome.processed, ordersCreateBody db orderId shopifyCustomerId lineItems today)

/-- Definition following the spec's words (section 4.2), for comparison
with `availablePlan`: among the eligible grants (active, unexpired, with
credit available or unlimited) prefer the one expiring soonest, ties
broken by creation order — modelled as the stable minimum by `end_date`
over the fetched list: the tie-break keeps the earlier-listed grant. -/
def availablePlanSpec (db : Db) (studentId : Nat) (today : Int) :
    Option StudentPlan :=
  let eligible := db.student_plans.filter
    (fun p => p.student_id == studentId
      && p.status == PlanStatus.active && decide (today ≤ p.end_date)
      && (p.is_unlimited || decide (0 < p.remaining_credits)))
  eligible.foldl
    (fun acc p =>
      match acc with
      | none => some p
      | some q => if p.end_date < q.end_date then some p else some q)
    none

/-- The interleaving of two create-booking requests in which both
requests' reads and guard checks run before either request's insert: each
Supabase statement is individually atomic, but the handler wraps the
check-then-insert sequence in no transaction, so this schedule is
possible.  Both commits then apply in order. -/
def racyPair (db : Db) (st1 st2 sessionId : Nat) (now today : Int) :
    Db × Except ReserveError Booking × Except ReserveError Booking :=
  match reserveValidate db st1 sessionId now today,
        reserveValidate db st2 sessionId now today with
  | Except.ok p1, Except.ok p2 =>
    let c1 := reserveCommit db st1 sessionId p1 true
    let c2 := reserveCommit c1.1 st2 sessionId p2 true
    (c2.1, Except.ok c1.2, Except.ok c2.2)
  | Except.ok p1, Except.error e2 =>
    let c1 := reserveCommit db st1 sessionId p1 true
    (c1.1, Except.ok c1.2, Except.error e2)
  | Except.error e1, Except.ok p2 =>
    let c2 := reserveCommit db st2 sessionId p2 true
    (c2.1, Except.error e1, Except.ok c2.2)
  | Except.error e1, Except.error e2 =>
    (db, Except.error e1, Except.error e2)

/-- The active bookings of a (member, session) pair, for the
at-most-one-active invariant. -/
def activeBookingsFor (db : Db) (studentId sessionId : Nat) : List Booking :=
  db.bookings.filter
    (fun b => b.student_id == studentId && b.session_id == sessionId
      && b.status == BookingStatus.active)

/-! Concrete states used by the witnesses and counterexamples below. -/

/-- A scheduled session with room and an open booking window
(datetime 1000000 ms, 5-minute cutoff). -/
def sessOpen : Session :=
  { id := 1, session_date := 5, session_datetime := 1000000, capacity := 10,
    spots_taken := 0, booking_cutoff_minutes := 5,
    cancellation_cutoff_hours := 2, status := SessionStatus.scheduled }

/-- A scheduled session whose booking cutoff has passed and which is
also full. -/
def sessFullLate : Session :=
  { id := 1, session_date := 0, session_datetime := 100000, capacity := 1,
    spots_taken := 1, booking_cutoff_minutes := 5,
    cancellation_cutoff_hours := 2, status := SessionStatus.scheduled }

/-- A scheduled session past its booking cutoff with spots remaining. -/
def sessLate : Session :=
  { id := 1, session_date := 0, session_datetime := 100000, capacity := 1,
    spots_taken := 0, booking_cutoff_minutes := 5,
    cancellation_cutoff_hours := 2, status := SessionStatus.scheduled }

/-- A scheduled session whose cancellation deadline has passed
(datetime 1000000 ms, 2-hour cancellation cutoff). -/
def sessPastCancel : Session :=
  { id := 1, session_date := 0, session_datetime := 1000000, capacity := 10,
    spots_taken := 1, booking_cutoff_minutes := 5,
    cancellation_cutoff_hours := 2, status := SessionStatus.scheduled }

/-- A single-spot session with an open booking window. -/
def sessOneSpot : Session :=
  { id := 1, session_date := 5, session_datetime := 1000000, capacity := 1,
    spots_taken := 0, booking_cutoff_minutes := 5,
    cancellation_cutoff_hours := 2, status := SessionStatus.scheduled }

/-- An active one-credit grant of student 1 expiring late (day 100). -/
def planLate1 : StudentPlan :=
  { id := 1, student_id := 1, purchase_id := 1, remaining_credits := 1,
    is_unlimited := false, end_date := 100, status := PlanStatus.active }

/-- An active one-credit grant of student 1 expiring soon (day 10),
listed after `planLate1`. -/
def planSoon2 : StudentPlan :=
  { id := 2, student_id := 1, purchase_id := 2, remaining_credits := 1,
    is_unlimited := false, end_date := 10, status := PlanStatus.active }

/-- An active one-credit grant of student 2. -/
def planSt2 : StudentPlan :=
  { id := 3, student_id := 2, purchase_id := 3, remaining_credits := 1,
    is_unlimited := false, end_date := 100, status := PlanStatus.active }

/-- An active booking of student 1 on session 1 against grant 1. -/
def bookActive : Booking :=
  { id := 5, student_id := 1, session_id := 1, student_plan_id := 1,
    status := BookingStatus.active, cancelled_at := none,
    cancellation_reason := none, credit_refunded := false }

def dbListW : Db := { Db.empty with sessions := [sessOpen] }

def dbFullLate : Db := { Db.empty with sessions := [sessFullLate] }

def dbLate : Db :=
  { Db.empty with sessions := [sessLate], student_plans := [planLate1] }

def dbPastCancel : Db :=
  { Db.empty with
    sessions := [sessPastCancel]
    bookings := [bookActive]
    student_plans := [planLate1] }

def dbTwoPlans : Db := { Db.empty with student_plans := [planLate1, planSoon2] }

def dbBooked : Db :=
  { Db.empty with
    sessions := [sessOpen]
    bookings := [bookActive]
    student_plans := [planLate1] }

def dbReserve : Db :=
  { Db.empty with
    sessions := [sessOneSpot]
    student_plans := [planLate1]
    nextBookingId := 7 }

def dbRace : Db :=
  { Db.empty with
    sessions := [sessOneSpot]
    student_plans := [planLate1, planSt2]
    nextBookingId := 7 }

/-- A scheduled session with one spot currently taken. -/
def sessOneTaken : Session :=
  { id := 1, session_date := 5, session_datetime := 1000000, capacity := 10,
    spots_taken := 1, booking_cutoff_minutes := 5,
    cancellation_cutoff_hours := 2, status := SessionStatus.scheduled }

/-- An active grant of student 1 with three remaining credits, hanging
off purchase 1. -/
def planThree : StudentPlan :=
  { id := 1, student_id := 1, purchase_id := 1, remaining_credits := 3,
    is_unlimited := false, end_date := 100, status := PlanStatus.active }

/-- The purchase of `planThree`, belonging to external order 7. -/
def purchaseOrder7 : PlanPurchase := { id := 1, shopify_order_id := 7 }

/-- State for the grant-reversal scenario: order 7 bought grant 1
(3 credits left), which paid for one active booking on a session with
one spot taken. -/
def dbGrantRev : Db :=
  { Db.empty with
    sessions := [sessOneTaken]
    student_plans := [planThree]
    bookings := [bookActive]
    plan_purchases := [purchaseOrder7] }

lemma find?_map_congr {α : Type} (g : α → α) (p : α → Bool)
    (hp : ∀ a, p (g a) = p a) (l : List α) :
    (l.map g).find? p = (l.find? p).map g := by
  rw [List.find?_map]
  have hpg : p ∘ g = p := funext hp
  rw [hpg]

lemma filter_find?_eq {α : Type} (q p : α → Bool) (l : List α) :
    (l.filter q).find? p = (l.filter (fun a => q a && p a)).head? := by
  induction l with
  | nil => rfl
  | cons a t ih =>
    cases hq : q a <;> cases hp : p a <;>
      simp [List.filter_cons, List.find?, hq, hp, ih]

/-- C9: every session returned by the list-available-sessions operation
has status scheduled, a session date of today or later, and a booking
cutoff that has not yet passed; sessions past their cutoff are filtered
out even though the listing is read-only. -/
theorem C9_listed_sessions_are_bookable (db : Db) (today now : Int)
    (dateFilter : Option Int) (s : Session)
    (h : s ∈ listAvailableSessions db today now dateFilter) :
    s.status = SessionStatus.scheduled ∧ today ≤ s.session_date ∧
      now < bookingCutoffTime s := by
  cases dateFilter with
  | none =>
    simp only [listAvailableSessions, List.mem_filter, Bool.and_eq_true,
      beq_iff_eq, decide_eq_true_eq] at h
    exact ⟨h.1.2.1, h.1.2.2, h.2⟩
  | some d =>
    simp only [listAvailableSessions, List.mem_filter, Bool.and_eq_true,
      beq_iff_eq, decide_eq_true_eq] at h
    exact ⟨h.1.1.2.1, h.1.1.2.2, h.2⟩

/-- Witness for C9 at a concrete state. -/
theorem C9_witness :
    sessOpen.status = SessionStatus.scheduled ∧ (0:Int) ≤ sessOpen.session_date ∧
      (0:Int) < bookingCutoffTime sessOpen :=
  C9_listed_sessions_are_bookable dbListW 0 0 none sessOpen (by decide)

/-- C4 counterexample: on a session that is both full and past its
booking cutoff the handler answers SessionFull, not BookingClosed — the
capacity check at line 185 of `bookings.js` runs before the cutoff check
at line 197, contradicting the claimed ordering. -/
theorem C4_counterexample :
    bookingCutoffTime sessFullLate ≤ (0:Int) ∧ spots_left sessFullLate ≤ 0 ∧
    createBooking dbFullLate 1 1 0 0 true =
      (dbFullLate, Except.error ReserveError.sessionFull) ∧
    ReserveError.sessionFull ≠ ReserveError.bookingClosed := by decide

/-- C4 as amended: a reserve on a scheduled session past the booking
cutoff (with no duplicate active booking) rejects without mutating state,
but the error is SessionFull when the session is also full — because the
capacity check precedes the cutoff check — and BookingClosed only
otherwise. -/
theorem C4_cutoff_rejection (db : Db) (studentId sessionId : Nat)
    (now today : Int) (txOk : Bool) (s : Session)
    (hnb : db.bookings.find?
      (fun b => b.student_id == studentId && b.session_id == sessionId
        && b.status == BookingStatus.active) = none)
    (hs : db.sessions.find? (fun x => x.id == sessionId) = some s)
    (hsch : s.status = SessionStatus.scheduled)
    (hcut : bookingCutoffTime s ≤ now) :
    createBooking db studentId sessionId now today txOk =
      (db, Except.error
        (if spots_left s ≤ 0 then ReserveError.sessionFull
         else ReserveError.bookingClosed)) := by
  unfold createBooking reserveValidate
  rw [hnb, hs]
  by_cases hfull : spots_left s ≤ 0 <;>
    simp [hsch, hcut, hfull]

/-- Witness for C4 at a concrete state: past cutoff, spots remaining. -/
theorem C4_witness :
    createBooking dbLate 1 1 0 0 true =
      (dbLate, Except.error ReserveError.bookingClosed) := by
  have h := C4_cutoff_rejection dbLate 1 1 0 0 true sessLate
    (by decide) (by decide) (by decide) (by decide)
  rw [h]
  decide

/-- C2 counterexample: a cancel requested after the cancellation cutoff
is rejected outright with a deadline error; the booking stays active and
no state changes — the cutoff blocks the cancellation itself, not only
the refund. -/
theorem C2_counterexample :
    cancellationDeadline sessPastCancel ≤ (0:Int) ∧
    cancelBooking dbPastCancel 1 5 0 none true =
      (dbPastCancel, Except.error CancelError.deadlinePassed) ∧
    (dbPastCancel.bookings.find? (fun b => b.id == 5)).map Booking.status =
      some BookingStatus.active := by decide

/-- C2 as amended: for an active booking owned by the requesting member,
a cancel at or after the cancellation deadline fails with
CancellationDeadlinePassed and leaves the store untouched: the cutoff
denies the whole cancellation, not merely the refund. -/
theorem C2_late_cancel_rejected (db : Db) (studentId bookingId : Nat)
    (now : Int) (reason : Option String) (txOk : Bool) (b : Booking)
    (s : Session)
    (hb : db.bookings.find?
      (fun x => x.id == bookingId && x.student_id == studentId) = some b)
    (hact : b.status = BookingStatus.active)
    (hs : db.sessions.find? (fun x => x.id == b.session_id) = some s)
    (hlate : cancellationDeadline s ≤ now) :
    cancelBooking db studentId bookingId now reason txOk =
      (db, Except.error CancelError.deadlinePassed) := by
  unfold cancelBooking
  rw [hb]
  simp [hact, hs, hlate]

/-- Witness for C2 at a concrete state. -/
theorem C2_witness :
    cancelBooking dbPastCancel 1 5 0 none true =
      (dbPastCancel, Except.error CancelError.deadlinePassed) :=
  C2_late_cancel_rejected dbPastCancel 1 5 0 none true bookActive
    sessPastCancel (by decide) (by decide) (by decide) (by decide)

/-- C6 counterexample: with two eligible grants — the first fetched
expiring on day 100, the second on day 10 — the handler charges the first
fetched one (id 1), not the soonest-expiring one (id 2) that the
spec-worded selection picks. -/
theorem C6_counterexample :
    (availablePlan dbTwoPlans 1 0).map (fun p => p.id) = some 1 ∧
    (availablePlanSpec dbTwoPlans 1 0).map (fun p => p.id) = some 2 ∧
    planLate1.end_date = 100 ∧ planSoon2.end_date = 10 := by decide

/-- C6 as amended: the grant charged is simply the first grant, in the
order the unordered plans query returns them, that is active, unexpired
and has credit available (or is unlimited); any such result is indeed
eligible, but no soonest-expiry preference is applied. -/
theorem C6_first_fetched_plan_charged (db : Db) (studentId : Nat)
    (today : Int) :
    availablePlan db studentId today =
      (db.student_plans.filter
        (fun p => (p.student_id == studentId && p.status == PlanStatus.active
          && decide (today ≤ p.end_date))
          && (p.is_unlimited || decide (0 < p.remaining_credits)))).head? ∧
    ∀ p, availablePlan db studentId today = some p →
      p.student_id = studentId ∧ p.status = PlanStatus.active ∧
        today ≤ p.end_date ∧
        (p.is_unlimited = true ∨ 0 < p.remaining_credits) := by
  constructor
  · unfold availablePlan
    rw [filter_find?_eq]
  · intro p hp
    unfold availablePlan at hp
    have hmem := List.mem_of_find?_eq_some hp
    have hcred := List.find?_some hp
    rw [List.mem_filter] at hmem
    have hflt := hmem.2
    simp only [Bool.and_eq_true, Bool.or_eq_true, beq_iff_eq,
      decide_eq_true_eq] at hflt hcred
    exact ⟨hflt.1.1, hflt.1.2, hflt.2, hcred⟩

/-- Witness for C6 at a concrete state. -/
theorem C6_witness :
    planLate1.student_id = 1 ∧ planLate1.status = PlanStatus.active ∧
      (0:Int) ≤ planLate1.end_date ∧
      (planLate1.is_unlimited = true ∨ 0 < planLate1.remaining_credits) :=
  (C6_first_fetched_plan_charged dbTwoPlans 1 0).2 planLate1 (by decide)

/-- C7: when the member already holds an active booking for the session,
the handler answers AlreadyBooked and the store is unchanged, so the
at-most-one-active-booking-per-pair invariant is preserved. -/
theorem C7_duplicate_booking_rejected (db : Db) (studentId sessionId : Nat)
    (now today : Int) (txOk : Bool) (b0 : Booking)
    (hmem : b0 ∈ db.bookings) (hst : b0.student_id = studentId)
    (hse : b0.session_id = sessionId)
    (hac : b0.status = BookingStatus.active) :
    createBooking db studentId sessionId now today txOk =
      (db, Except.error ReserveError.alreadyBooked) ∧
    ∀ x y : Nat, (activeBookingsFor db x y).length ≤ 1 →
      (activeBookingsFor
        (createBooking db studentId sessionId now today txOk).1 x y).length ≤ 1 := by
  have hfind : (db.bookings.find?
      (fun b => b.student_id == studentId && b.session_id == sessionId
        && b.status == BookingStatus.active)).isSome := by
    rw [List.find?_isSome]
    exact ⟨b0, hmem, by simp [hst, hse, hac]⟩
  have heq : createBooking db studentId sessionId now today txOk =
      (db, Except.error ReserveError.alreadyBooked) := by
    unfold createBooking reserveValidate
    simp [hfind]
  exact ⟨heq, fun x y h => by rw [heq]; exact h⟩

/-- Witness for C7 at a concrete state. -/
theorem C7_witness :
    createBooking dbBooked 1 1 0 0 true =
      (dbBooked, Except.error ReserveError.alreadyBooked) :=
  (C7_duplicate_booking_rejected dbBooked 1 1 0 0 true bookActive
    (by decide) rfl rfl rfl).1

lemma create_credit_transaction_bookings (db : Db) (planId : Nat)
    (t : TxType) (amount : Int) (refId : Nat) (refType : String) :
    (create_credit_transaction db planId t amount refId refType).bookings =
      db.bookings := by
  unfold create_credit_transaction
  cases db.student_plans.find? (fun p => p.id == planId) <;> simp

lemma create_credit_transaction_sessions (db : Db) (planId : Nat)
    (t : TxType) (amount : Int) (refId : Nat) (refType : String) :
    (create_credit_transaction db planId t amount refId refType).sessions =
      db.sessions := by
  unfold create_credit_transaction
  cases db.student_plans.find? (fun p => p.id == planId) <;> simp

lemma create_credit_transaction_txs (db : Db) (planId : Nat) (t : TxType)
    (amount : Int) (refId : Nat) (refType : String) (q : StudentPlan)
    (h : db.student_plans.find? (fun p => p.id == planId) = some q) :
    (create_credit_transaction db planId t amount refId refType).credit_transactions =
      { student_plan_id := planId, transaction_type := t, amount := amount,
        balance_before := q.remaining_credits,
        balance_after := q.remaining_credits +
          (if q.is_unlimited then 0 else
            match t with
            | TxType.debit => -amount
            | TxType.credit => amount),
        reference_id := refId, reference_type := refType }
        :: db.credit_transactions := by
  unfold create_credit_transaction
  rw [h]

lemma availablePlan_mem (db : Db) (studentId : Nat) (today : Int)
    (p : StudentPlan) (h : availablePlan db studentId today = some p) :
    p ∈ db.student_plans := by
  unfold availablePlan at h
  exact (List.mem_filter.mp (List.mem_of_find?_eq_some h)).1

lemma reserveValidate_ok_plan (db : Db) (studentId sessionId : Nat)
    (now today : Int) (p : StudentPlan)
    (hv : reserveValidate db studentId sessionId now today = Except.ok p) :
    availablePlan db studentId today = some p := by
  unfold reserveValidate at hv
  by_cases h1 : (db.bookings.find?
      (fun b => b.student_id == studentId && b.session_id == sessionId
        && b.status == BookingStatus.active)).isSome = true
  · rw [if_pos h1] at hv
    exact Except.noConfusion hv
  · rw [if_neg h1] at hv
    cases h2 : db.sessions.find? (fun s => s.id == sessionId) with
    | none => rw [h2] at hv; exact Except.noConfusion hv
    | some s =>
      simp only [h2] at hv
      by_cases h3 : s.status ≠ SessionStatus.scheduled
      · rw [if_pos h3] at hv; exact Except.noConfusion hv
      · rw [if_neg h3] at hv
        by_cases h4 : spots_left s ≤ 0
        · rw [if_pos h4] at hv; exact Except.noConfusion hv
        · rw [if_neg h4] at hv
          by_cases h5 : bookingCutoffTime s ≤ now
          · rw [if_pos h5] at hv; exact Except.noConfusion hv
          · rw [if_neg h5] at hv
            cases h6 : availablePlan db studentId today with
            | none => rw [h6] at hv; exact Except.noConfusion hv
            | some q =>
              rw [h6] at hv
              injection hv with hqp
              exact congrArg some hqp

/-- C1 counterexample: a reserve whose ledger-debit storage call fails
still returns success and leaves an active Booking row with no matching
ledger entry — the commit is not all-or-nothing. -/
theorem C1_counterexample :
    ((createBooking dbReserve 1 1 0 0 false).2).isOk = true ∧
    ((createBooking dbReserve 1 1 0 0 false).1.bookings.filter
      (fun b => b.status == BookingStatus.active)).length = 1 ∧
    (createBooking dbReserve 1 1 0 0 false).1.credit_transactions = [] := by
  decide

/-- C1 as amended: the booking insert and the spots increment land
together, but the ledger debit is a separate best-effort call — on any
successful reserve the active Booking row exists and the session counter
is incremented, while the ledger debit entry exists only when that
storage call succeeded; its failure is merely logged and never rolls the
booking back. -/
theorem C1_commit_not_atomic (db : Db) (studentId sessionId : Nat)
    (now today : Int) (txOk : Bool) (db2 : Db) (b : Booking)
    (h : createBooking db studentId sessionId now today txOk =
      (db2, Except.ok b)) :
    b.status = BookingStatus.active ∧
    db2.bookings = b :: db.bookings ∧
    db2.sessions = db.sessions.map
      (fun s => if s.id == sessionId then
        { s with spots_taken := s.spots_taken + 1 } else s) ∧
    (txOk = false → db2.credit_transactions = db.credit_transactions) ∧
    (txOk = true → ∃ tx,
      db2.credit_transactions = tx :: db.credit_transactions ∧
      tx.transaction_type = TxType.debit ∧ tx.amount = 1 ∧
      tx.reference_id = b.id) := by
  cases hv : reserveValidate db studentId sessionId now today with
  | error e =>
    rw [createBooking, hv] at h
    exact absurd (congrArg Prod.snd h) (by simp)
  | ok p =>
    rw [createBooking, hv] at h
    simp only at h
    rw [Prod.mk.injEq] at h
    obtain ⟨hdb, hok⟩ := h
    rw [Except.ok.injEq] at hok
    have hap := reserveValidate_ok_plan db studentId sessionId now today p hv
    have hmem := availablePlan_mem db studentId today p hap
    have hfindSome : (db.student_plans.find? (fun q => q.id == p.id)).isSome := by
      rw [List.find?_isSome]
      exact ⟨p, hmem, by simp⟩
    obtain ⟨q, hq⟩ := Option.isSome_iff_exists.mp hfindSome
    subst hdb
    subst hok
    cases txOk with
    | false =>
      refine ⟨?_, ?_, ?_, ?_, ?_⟩ <;>
        simp [reserveCommit, insertActiveBooking, takeSpot]
    | true =>
      refine ⟨?_, ?_, ?_, ?_, ?_⟩
      · simp [reserveCommit, insertActiveBooking, takeSpot]
      · simp [reserveCommit, insertActiveBooking, takeSpot,
          create_credit_transaction_bookings]
      · simp [reserveCommit, insertActiveBooking, takeSpot,
          create_credit_transaction_sessions]
      · intro hfalse
        exact absurd hfalse (by simp)
      · intro _
        simp only [reserveCommit, insertActiveBooking, takeSpot, if_true]
        rw [create_credit_transaction_txs _ _ _ _ _ _ q (by simpa using hq)]
        exact ⟨_, rfl, rfl, rfl, rfl⟩

/-- Witness for C1 at a concrete state with a failing ledger call. -/
theorem C1_witness :
    ((createBooking dbReserve 1 1 0 0 false).1.bookings =
      { id := 7, student_id := 1, session_id := 1, student_plan_id := 1,
        status := BookingStatus.active, cancelled_at := none,
        cancellation_reason := none, credit_refunded := false }
        :: dbReserve.bookings) ∧
    (createBooking dbReserve 1 1 0 0 false).1.credit_transactions =
      dbReserve.credit_transactions := by
  have h := C1_commit_not_atomic dbReserve 1 1 0 0 false
    (createBooking dbReserve 1 1 0 0 false).1
    { id := 7, student_id := 1, session_id := 1, student_plan_id := 1,
      status := BookingStatus.active, cancelled_at := none,
      cancellation_reason := none, credit_refunded := false }
    (by decide)
  exact ⟨h.2.1, h.2.2.2.1 rfl⟩

/-- C5: a reserve on a scheduled, non-full session before the cutoff by
a member whose charged grant has one remaining credit succeeds and, in
one pass, inserts the active booking, increments `spots_taken` by one,
drops the grant's `remaining_credits` to zero, and appends exactly one
ledger debit of amount 1 referencing the new booking. -/
theorem C5_successful_reserve (db : Db) (studentId sessionId : Nat)
    (now today : Int) (s : Session) (p : StudentPlan)
    (hnb : db.bookings.find?
      (fun b => b.student_id == studentId && b.session_id == sessionId
        && b.status == BookingStatus.active) = none)
    (hs : db.sessions.find? (fun x => x.id == sessionId) = some s)
    (hsch : s.status = SessionStatus.scheduled)
    (hroom : 0 < spots_left s)
    (hcut : now < bookingCutoffTime s)
    (hp : availablePlan db studentId today = some p)
    (hfind : db.student_plans.find? (fun q => q.id == p.id) = some p)
    (hrem : p.remaining_credits = 1)
    (hun : p.is_unlimited = false) :
    ∃ b : Booking,
      createBooking db studentId sessionId now today true =
        ({ db with
            bookings := b :: db.bookings
            sessions := db.sessions.map
              (fun x => if x.id == sessionId then
                { x with spots_taken := x.spots_taken + 1 } else x)
            student_plans := db.student_plans.map
              (fun q => if q.id == p.id then
                { q with remaining_credits := 0 } else q)
            credit_transactions :=
              { student_plan_id := p.id, transaction_type := TxType.debit,
                amount := 1, balance_before := 1, balance_after := 0,
                reference_id := b.id, reference_type := "booking" }
                :: db.credit_transactions
            nextBookingId := db.nextBookingId + 1 }, Except.ok b) ∧
      b.status = BookingStatus.active := by
  have hv : reserveValidate db studentId sessionId now today = Except.ok p := by
    unfold reserveValidate
    rw [hnb, hs]
    simp [hsch, not_le.mpr hroom, not_le.mpr hcut, hp]
  refine
    ⟨{ id := db.nextBookingId
       student_id := studentId
       session_id := sessionId
       student_plan_id := p.id
       status := BookingStatus.active
       cancelled_at := none
       cancellation_reason := none
       credit_refunded := false }, ?_, rfl⟩
  rw [createBooking, hv]
  have h10 : (1 : Int) + -1 = 0 := by norm_num
  simp [reserveCommit, insertActiveBooking, takeSpot,
    create_credit_transaction, hfind, hrem, hun, h10]

/-- Witness for C5 at a concrete state. -/
theorem C5_witness :
    ∃ b : Booking, (createBooking dbReserve 1 1 0 0 true).2 = Except.ok b :=
  (C5_successful_reserve dbReserve 1 1 0 0 sessOneSpot planLate1
    (by decide) (by decide) (by decide) (by decide) (by decide) (by decide)
    (by decide) (by decide) (by decide)).elim
    (fun b hb => ⟨b, by rw [hb.1]⟩)

lemma reserveCommit_snd (db : Db) (studentId sessionId : Nat)
    (p : StudentPlan) (txOk : Bool) :
    (reserveCommit db studentId sessionId p txOk).2 =
      { id := db.nextBookingId, student_id := studentId,
        session_id := sessionId, student_plan_id := p.id,
        status := BookingStatus.active, cancelled_at := none,
        cancellation_reason := none, credit_refunded := false } := by
  simp [reserveCommit, insertActiveBooking, takeSpot]

lemma reserveCommit_fst_bookings (db : Db) (studentId sessionId : Nat)
    (p : StudentPlan) (txOk : Bool) :
    (reserveCommit db studentId sessionId p txOk).1.bookings =
      (reserveCommit db studentId sessionId p txOk).2 :: db.bookings := by
  cases txOk <;>
    simp [reserveCommit, insertActiveBooking, takeSpot,
      create_credit_transaction_bookings]

lemma reserveCommit_fst_sessions (db : Db) (studentId sessionId : Nat)
    (p : StudentPlan) (txOk : Bool) :
    (reserveCommit db studentId sessionId p txOk).1.sessions =
      db.sessions.map (fun x => if x.id == sessionId then
        { x with spots_taken := x.spots_taken + 1 } else x) := by
  cases txOk <;>
    simp [reserveCommit, insertActiveBooking, takeSpot,
      create_credit_transaction_sessions]

/-- C8 counterexample: with one spot left, the interleaving in which both
requests run their checks before either inserts lets both bookings
succeed, driving `spots_taken` to 2 on a capacity-1 session — the
check-then-insert sequence is not one atomic transaction. -/
theorem C8_counterexample :
    ((racyPair dbRace 1 2 1 0 0).2.1).isOk = true ∧
    ((racyPair dbRace 1 2 1 0 0).2.2).isOk = true ∧
    ((racyPair dbRace 1 2 1 0 0).1.sessions.find? (fun s => s.id == 1)).map
      Session.spots_taken = some 2 ∧
    sessOneSpot.capacity = 1 := by decide

/-- C8 as amended: two reserves against a one-spot session serialize
correctly only when the second request's checks run after the first's
commit — then exactly one succeeds and the other observes SessionFull —
but under the interleaving where both validate first, both succeed and
`spots_taken` reaches capacity + 1, because no transaction spans the
check and the insert. -/
theorem C8_single_spot_race (db : Db) (st1 st2 sessionId : Nat)
    (now today : Int) (s : Session) (p1 p2 : StudentPlan)
    (hs : db.sessions.find? (fun x => x.id == sessionId) = some s)
    (hsch : s.status = SessionStatus.scheduled)
    (hone : spots_left s = 1)
    (hcut : now < bookingCutoffTime s)
    (hb1 : db.bookings.find?
      (fun b => b.student_id == st1 && b.session_id == sessionId
        && b.status == BookingStatus.active) = none)
    (hb2 : db.bookings.find?
      (fun b => b.student_id == st2 && b.session_id == sessionId
        && b.status == BookingStatus.active) = none)
    (hp1 : availablePlan db st1 today = some p1)
    (hp2 : availablePlan db st2 today = some p2)
    (hne : st1 ≠ st2) :
    (((createBooking db st1 sessionId now today true).2).isOk = true ∧
      createBooking (createBooking db st1 sessionId now today true).1 st2
          sessionId now today true =
        ((createBooking db st1 sessionId now today true).1,
          Except.error ReserveError.sessionFull)) ∧
    ((racyPair db st1 st2 sessionId now today).2.1).isOk = true ∧
    ((racyPair db st1 st2 sessionId now today).2.2).isOk = true ∧
    ∃ t, t ∈ (racyPair db st1 st2 sessionId now today).1.sessions ∧
      t.id = s.id ∧ t.spots_taken = s.capacity + 1 := by
  have hsid : (s.id == sessionId) = true := by
    have h := List.find?_some hs
    exact h
  have hroom : ¬ spots_left s ≤ 0 := by rw [hone]; decide
  have hcutn : ¬ bookingCutoffTime s ≤ now := not_le.mpr hcut
  have hv1 : reserveValidate db st1 sessionId now today = Except.ok p1 := by
    unfold reserveValidate
    rw [hb1, hs]
    simp [hsch, hroom, hcutn, hp1]
  have hv2 : reserveValidate db st2 sessionId now today = Except.ok p2 := by
    unfold reserveValidate
    rw [hb2, hs]
    simp [hsch, hroom, hcutn, hp2]
  have hc1 : createBooking db st1 sessionId now today true =
      ((reserveCommit db st1 sessionId p1 true).1,
        Except.ok (reserveCommit db st1 sessionId p1 true).2) := by
    rw [createBooking, hv1]
  have hfind2 : (reserveCommit db st1 sessionId p1 true).1.bookings.find?
      (fun b => b.student_id == st2 && b.session_id == sessionId
        && b.status == BookingStatus.active) = none := by
    rw [reserveCommit_fst_bookings, List.find?_cons_of_neg, hb2]
    rw [reserveCommit_snd]
    simp [beq_eq_false_iff_ne.mpr hne]
  have heqid : s.id = sessionId := by simpa using hsid
  have hsess2 : (reserveCommit db st1 sessionId p1 true).1.sessions.find?
      (fun x => x.id == sessionId) =
      some { s with spots_taken := s.spots_taken + 1 } := by
    rw [reserveCommit_fst_sessions,
      find?_map_congr _ _
        (fun a => by cases h : (a.id == sessionId) <;> simp [h]) _, hs]
    simp [heqid]
  have hfull2 : spots_left
      { s with
        spots_taken := s.spots_taken + 1
        status := SessionStatus.scheduled } ≤ 0 := by
    simp [spots_left] at hone ⊢
    omega
  have hv2f : reserveValidate (reserveCommit db st1 sessionId p1 true).1 st2
      sessionId now today = Except.error ReserveError.sessionFull := by
    unfold reserveValidate
    rw [hfind2, hsess2]
    simp [hsch, hfull2]
  have hmem : s ∈ db.sessions := List.mem_of_find?_eq_some hs
  refine ⟨⟨by rw [hc1]; rfl, ?_⟩, ?_, ?_, ?_⟩
  · rw [hc1]
    simp only [createBooking, hv2f]
  · simp only [racyPair, hv1, hv2]
    rfl
  · simp only [racyPair, hv1, hv2]
    rfl
  · simp only [racyPair, hv1, hv2]
    simp only [reserveCommit_fst_sessions]
    refine ⟨_, List.mem_map_of_mem _ (List.mem_map_of_mem _ hmem), ?_, ?_⟩
    · simp [heqid]
    · simp only [spots_left] at hone
      simp [heqid]
      omega

/-- Witness for C8 at a concrete state. -/
theorem C8_witness :
    ((createBooking dbRace 1 1 0 0 true).2).isOk = true :=
  ((C8_single_spot_race dbRace 1 2 1 0 0 sessOneSpot planLate1 planSt2
    (by decide) (by decide) (by decide) (by decide) (by decide) (by decide)
    (by decide) (by decide) (by decide)).1).1

lemma cancelBookingRow_txs (db : Db) (bid : Nat) (now : Int) (r : String)
    (rf : Option Bool) :
    (cancelBookingRow db bid now r rf).credit_transactions =
      db.credit_transactions := by
  unfold cancelBookingRow
  cases db.bookings.find? (fun x => x.id == bid) with
  | none => rfl
  | some b0 =>
    cases hb : (b0.status == BookingStatus.active) <;> simp [hb, releaseSpot]

lemma cancelBookingRow_plans (db : Db) (bid : Nat) (now : Int) (r : String)
    (rf : Option Bool) :
    (cancelBookingRow db bid now r rf).student_plans = db.student_plans := by
  unfold cancelBookingRow
  cases db.bookings.find? (fun x => x.id == bid) with
  | none => rfl
  | some b0 =>
    cases hb : (b0.status == BookingStatus.active) <;> simp [hb, releaseSpot]

lemma cancelBookingRow_bookings (db : Db) (bid : Nat) (now : Int)
    (r : String) (rf : Option Bool) (b0 : Booking)
    (h : db.bookings.find? (fun x => x.id == bid) = some b0) :
    (cancelBookingRow db bid now r rf).bookings =
      db.bookings.map (fun x => if x.id == bid then
        { x with
          status := BookingStatus.cancelled
          cancelled_at := some now
          cancellation_reason := some r
          credit_refunded := rf.getD x.credit_refunded }
        else x) := by
  unfold cancelBookingRow
  rw [h]
  cases hb : (b0.status == BookingStatus.active) <;> simp [hb, releaseSpot]

lemma cancelBookingRow_sessions_active (db : Db) (bid : Nat) (now : Int)
    (r : String) (rf : Option Bool) (b0 : Booking)
    (h : db.bookings.find? (fun x => x.id == bid) = some b0)
    (ha : (b0.status == BookingStatus.active) = true) :
    (cancelBookingRow db bid now r rf).sessions =
      db.sessions.map (fun x => if x.id == b0.session_id then
        { x with spots_taken := max 0 (x.spots_taken - 1) } else x) := by
  unfold cancelBookingRow
  rw [h]
  simp [ha, releaseSpot]

lemma foldl_cancel_txs (now : Int) (l : List Booking) (d : Db) :
    (l.foldl (fun acc b =>
      cancelBookingRow acc b.id now "Order refunded" (some true)) d).credit_transactions =
      d.credit_transactions := by
  induction l generalizing d with
  | nil => rfl
  | cons a t ih =>
    simp only [List.foldl_cons]
    rw [ih, cancelBookingRow_txs]

lemma foldl_cancel_plans (now : Int) (l : List Booking) (d : Db) :
    (l.foldl (fun acc b =>
      cancelBookingRow acc b.id now "Order refunded" (some true)) d).student_plans =
      d.student_plans := by
  induction l generalizing d with
  | nil => rfl
  | cons a t ih =>
    simp only [List.foldl_cons]
    rw [ih, cancelBookingRow_plans]

lemma planCancelled_status (db : Db) (planId : Nat) (q : StudentPlan)
    (hq : q ∈ (planCancelled db planId).student_plans) (hid : q.id = planId) :
    q.status = PlanStatus.cancelled := by
  unfold planCancelled at hq
  simp only [List.mem_map] at hq
  obtain ⟨q0, _, rfl⟩ := hq
  cases h0 : (q0.id == planId) with
  | true => simp [h0]
  | false =>
    simp only [h0, Bool.false_eq_true, if_false] at hid
    exact absurd hid (beq_eq_false_iff_ne.mp h0)

lemma create_credit_transaction_plan_status (db : Db) (planId : Nat)
    (t : TxType) (amount : Int) (refId : Nat) (refType : String)
    (q : StudentPlan)
    (hq : q ∈ (create_credit_transaction db planId t amount refId refType).student_plans) :
    ∃ q0 ∈ db.student_plans, q0.id = q.id ∧ q0.status = q.status := by
  unfold create_credit_transaction at hq
  cases h : db.student_plans.find? (fun p => p.id == planId) with
  | none =>
    rw [h] at hq
    exact ⟨q, hq, rfl, rfl⟩
  | some p =>
    rw [h] at hq
    simp only [List.mem_map] at hq
    obtain ⟨q0, hq0, rfl⟩ := hq
    cases h0 : (q0.id == planId) <;> exact ⟨q0, hq0, by simp [h0], by simp [h0]⟩

/-- C3 counterexample: reversing the grant of order 7 cancels the
dependent booking but records `credit_refunded = true` — not the claimed
`false` — even though no per-booking ledger credit is issued. -/
theorem C3_counterexample :
    ((ordersCancelledBody dbGrantRev 7 0).bookings.find?
      (fun b => b.id == 5)).map Booking.credit_refunded = some true ∧
    ((ordersCancelledBody dbGrantRev 7 0).bookings.find?
      (fun b => b.id == 5)).map Booking.status = some BookingStatus.cancelled ∧
    ((ordersCancelledBody dbGrantRev 7 0).credit_transactions.length = 1) := by
  decide

/-- C3 as amended: reversing a grant with one active dependent booking
marks every copy of the grant cancelled, appends exactly one ledger
credit equal to the grant's remaining credits, cancels the dependent
booking — with `credit_refunded` recorded as true although no second
credit is issued — and decrements the booked session's `spots_taken` by
one (floor-clamped at zero, via the storage rule). -/
theorem C3_grant_reversal_cascade (db : Db) (orderId : Nat) (now : Int)
    (pu : PlanPurchase) (sp : StudentPlan) (b : Booking)
    (hpu : db.plan_purchases.filter
      (fun p => p.shopify_order_id == orderId) = [pu])
    (hsp : db.student_plans.filter
      (fun q => q.purchase_id == pu.id) = [sp])
    (hfind : db.student_plans.find? (fun q => q.id == sp.id) = some sp)
    (hb : db.bookings.filter
      (fun x => x.student_plan_id == sp.id
        && x.status == BookingStatus.active) = [b])
    (hbfind : db.bookings.find? (fun x => x.id == b.id) = some b) :
    (∀ q ∈ (ordersCancelledBody db orderId now).student_plans,
      q.id = sp.id → q.status = PlanStatus.cancelled) ∧
    (∃ tx, (ordersCancelledBody db orderId now).credit_transactions =
      tx :: db.credit_transactions ∧ tx.transaction_type = TxType.credit ∧
      tx.amount = sp.remaining_credits ∧ tx.student_plan_id = sp.id) ∧
    (ordersCancelledBody db orderId now).bookings =
      db.bookings.map (fun x => if x.id == b.id then
        { x with
          status := BookingStatus.cancelled
          cancelled_at := some now
          cancellation_reason := some "Order refunded"
          credit_refunded := true }
        else x) ∧
    (ordersCancelledBody db orderId now).sessions =
      db.sessions.map (fun x => if x.id == b.session_id then
        { x with spots_taken := max 0 (x.spots_taken - 1) } else x) := by
  have hbody : ordersCancelledBody db orderId now =
      reverseStudentPlan db pu.id sp now := by
    unfold ordersCancelledBody
    rw [hpu]
    simp [hsp]
  have hfind1 : (planCancelled db sp.id).student_plans.find?
      (fun q => q.id == sp.id) =
      some { sp with status := PlanStatus.cancelled } := by
    simp only [planCancelled]
    rw [find?_map_congr _ _
      (fun a => by cases h : (a.id == sp.id) <;> simp [h]) _, hfind]
    simp
  have hD2book : (create_credit_transaction (planCancelled db sp.id) sp.id
      TxType.credit sp.remaining_credits pu.id "refund").bookings =
      db.bookings := by
    rw [create_credit_transaction_bookings]
    rfl
  have hpred : (b.student_plan_id == sp.id
      && b.status == BookingStatus.active) = true := by
    have hm : b ∈ db.bookings.filter
        (fun x => x.student_plan_id == sp.id
          && x.status == BookingStatus.active) := by
      rw [hb]
      exact List.mem_singleton.mpr rfl
    exact (List.mem_filter.mp hm).2
  have hactive : (b.status == BookingStatus.active) = true := by
    simpa using (Bool.and_eq_true _ _ |>.mp hpred).2
  have hcas : reverseStudentPlan db pu.id sp now =
      cancelBookingRow (create_credit_transaction (planCancelled db sp.id)
        sp.id TxType.credit sp.remaining_credits pu.id "refund")
        b.id now "Order refunded" (some true) := by
    unfold reverseStudentPlan cascadeCancelActives
    rw [hD2book, hb]
    simp
  have hD2bfind : (create_credit_transaction (planCancelled db sp.id) sp.id
      TxType.credit sp.remaining_credits pu.id "refund").bookings.find?
      (fun x => x.id == b.id) = some b := by
    rw [hD2book]
    exact hbfind
  refine ⟨?_, ?_, ?_, ?_⟩
  · intro q hq hqid
    rw [hbody, hcas] at hq
    rw [cancelBookingRow_plans] at hq
    obtain ⟨q0, hq0mem, hq0id, hq0st⟩ :=
      create_credit_transaction_plan_status _ _ _ _ _ _ q hq
    rw [← hq0st]
    exact planCancelled_status db sp.id q0 hq0mem (hq0id.trans hqid)
  · rw [hbody, hcas, cancelBookingRow_txs,
      create_credit_transaction_txs _ _ _ _ _ _ _ hfind1]
    exact ⟨_, rfl, rfl, rfl, rfl⟩
  · rw [hbody, hcas, cancelBookingRow_bookings _ _ _ _ _ b hD2bfind, hD2book]
    simp
  · rw [hbody, hcas,
      cancelBookingRow_sessions_active _ _ _ _ _ b hD2bfind hactive,
      create_credit_transaction_sessions]
    rfl

/-- Witness for C3 at the concrete reversal scenario state. -/
theorem C3_witness :
    ∃ tx, (ordersCancelledBody dbGrantRev 7 0).credit_transactions =
      tx :: dbGrantRev.credit_transactions ∧
      tx.transaction_type = TxType.credit ∧
      tx.amount = planThree.remaining_credits ∧
      tx.student_plan_id = planThree.id :=
  (C3_grant_reversal_cascade dbGrantRev 7 0 purchaseOrder7 planThree
    bookActive (by decide) (by decide) (by decide) (by decide)
    (by decide)).2.1

/-- C10 counterexample: a signature whose decoded length differs from
the 32-byte digest (here: empty) makes `crypto.timingSafeEqual` throw, so
the handler answers with a 500 server error, not 401 Unauthorized — the
store is still untouched. -/
theorem C10_counterexample :
    (ordersCancelledWebhook (fun _ _ => List.replicate 32 0) (some "s")
      "body" (some []) Db.empty 7 0).1 = WebhookOutcome.serverError ∧
    WebhookOutcome.serverError ≠ WebhookOutcome.unauthorized ∧
    some ([] : List Nat) ≠
      some ((fun _ _ => List.replicate 32 0) "s" "body") ∧
    (ordersCancelledWebhook (fun _ _ => List.replicate 32 0) (some "s")
      "body" (some []) Db.empty 7 0).2 = Db.empty := by
  refine ⟨rfl, by decide, by decide, rfl⟩

/-- C10 as amended: a grant-creation or grant-reversal webhook request
whose signature does not match the configured secret's digest never
reaches the body — the store is unchanged and the outcome is never
`processed`; the answer is 401 Unauthorized when the decoded signature
has the digest's length (and when no secret is configured the check
returns false outright), but a length mismatch or a missing header makes
the timing-safe comparison throw and yields a 500 server error instead. -/
theorem C10_unverified_webhook_writes_nothing
    (hm : String → String → List Nat) (sec body : String)
    (signature : Option (List Nat)) (db : Db) (orderId cust : Nat)
    (lineItems : List LineItem) (now today : Int)
    (hsig : signature ≠ some (hm sec body)) :
    ((ordersCancelledWebhook hm (some sec) body signature db orderId now).2 = db ∧
      (ordersCancelledWebhook hm (some sec) body signature db orderId now).1 ≠
        WebhookOutcome.processed) ∧
    ((ordersCreateWebhook hm (some sec) body signature db orderId cust
        lineItems today).2 = db ∧
      (ordersCreateWebhook hm (some sec) body signature db orderId cust
        lineItems today).1 ≠ WebhookOutcome.processed) ∧
    (∀ bytes, signature = some bytes →
      bytes.length = (hm sec body).length →
      (ordersCancelledWebhook hm (some sec) body signature db orderId now).1 =
        WebhookOutcome.unauthorized ∧
      (ordersCreateWebhook hm (some sec) body signature db orderId cust
        lineItems today).1 = WebhookOutcome.unauthorized) ∧
    (ordersCancelledWebhook hm none body signature db orderId now =
      (WebhookOutcome.unauthorized, db) ∧
      ordersCreateWebhook hm none body signature db orderId cust
        lineItems today = (WebhookOutcome.unauthorized, db)) := by
  have hne1 : WebhookOutcome.serverError ≠ WebhookOutcome.processed := by
    decide
  have hne2 : WebhookOutcome.unauthorized ≠ WebhookOutcome.processed := by
    decide
  cases signature with
  | none =>
    refine ⟨⟨rfl, hne1⟩, ⟨rfl, hne1⟩, ?_, rfl, rfl⟩
    intro bytes hbytes
    exact absurd hbytes (by simp)
  | some bytes =>
    have hne : bytes ≠ hm sec body := fun he => hsig (by rw [he])
    have hbeq : (bytes == hm sec body) = false := beq_eq_false_iff_ne.mpr hne
    by_cases hlen : bytes.length = (hm sec body).length
    · have hver : verifyShopifyWebhook hm (some sec) body (some bytes) =
          Except.ok false := by
        unfold verifyShopifyWebhook timingSafeEqual
        simp [hlen, hbeq]
      refine ⟨?_, ?_, ?_, rfl, rfl⟩
      · unfold ordersCancelledWebhook
        rw [hver]
        exact ⟨rfl, hne2⟩
      · unfold ordersCreateWebhook
        rw [hver]
        exact ⟨rfl, hne2⟩
      · intro bytes2 hbytes2 _
        have hb2 : bytes2 = bytes := by
          injection hbytes2.symm
        subst hb2
        constructor
        · unfold ordersCancelledWebhook
          rw [hver]
        · unfold ordersCreateWebhook
          rw [hver]
    · have hver : verifyShopifyWebhook hm (some sec) body (some bytes) =
          Except.error () := by
        unfold verifyShopifyWebhook timingSafeEqual
        simp [hlen]
      refine ⟨?_, ?_, ?_, rfl, rfl⟩
      · unfold ordersCancelledWebhook
        rw [hver]
        exact ⟨rfl, hne1⟩
      · unfold ordersCreateWebhook
        rw [hver]
        exact ⟨rfl, hne1⟩
      · intro bytes2 hbytes2 hlen2
        have hb2 : bytes2 = bytes := by
          injection hbytes2.symm
        subst hb2
        exact absurd hlen2 hlen

/-- Witness for C10: a wrong 32-byte signature of the right length is
answered with 401 Unauthorized and no state change. -/
theorem C10_witness :
    (ordersCancelledWebhook (fun _ _ => List.replicate 32 0) (some "s")
      "body" (some (List.replicate 32 1)) Db.empty 7 0).1 =
      WebhookOutcome.unauthorized :=
  ((C10_unverified_webhook_writes_nothing (fun _ _ => List.replicate 32 0)
    "s" "body" (some (List.replicate 32 1)) Db.empty 7 3 [] 0 0
    (by decide)).2.2.1 (List.replicate 32 1) rfl (by decide)).1

end Booker
